import Mathlib

/-!
A verification development for the `node-express-mongodb-practice` e-shop
backend.  The JavaScript request handlers, the Mongoose data models, the
authentication middleware and the documentation generators are shallowly
embedded as executable Lean definitions; the theorems below settle the
spec's claims against those definitions.

Modelling conventions:
* MongoDB ObjectIds are modelled as natural numbers (`DocId`);
* collections are association lists `List (DocId × α)`; `List.lookup`
  finds the first binding, inserts prepend, deletes filter by key;
* JavaScript numbers are modelled as `Int` (the claims under scrutiny are
  exact arithmetic identities, not floating-point facts);
* an Express response is either a single `(status, body)` pair or, for
  handlers that can write twice (missing `return` before a second
  `res.send`), the ordered list of attempted writes, the first of which is
  the status actually transmitted.
-/

namespace EShop

/-- MongoDB ObjectIds, modelled as natural numbers. -/
abbrev DocId := Nat

/-- JSON-ish response bodies used by the embedded handlers. -/
inductive BodyK where
  /-- `res.json(\x7b success, message \x7d)` -/
  | errMsg (success : Bool) (message : String)
  /-- `res.send(\x7b count \x7d)` -/
  | countVal (n : Int)
  /-- `res.send(document)`; `present` records whether the document was `null`. -/
  | docOpt (present : Bool)
  /-- `res.send("...")` plain text body -/
  | text (s : String)
deriving DecidableEq, Repr

/-- One attempted response write: a status code and a body. -/
abbrev Write := Nat × BodyK

/-- The status a client observes from a write log: the first write wins
(later writes raise `ERR_HTTP_HEADERS_SENT` server-side). -/
def respStatus (ws : List Write) : Option Nat :=
  ws.head?.map Prod.fst

/-! ### helpers/error-handler.js -/

/-- The error object reaching the Express error middleware: its `name`,
`message`, and (for MongoDB errors) numeric `code`. -/
structure JsError where
  name : String
  message : String
  code : Option Int
deriving DecidableEq, Repr

/-- Bodies produced by the error middleware: either a message object or the
raw error object (the final 500 branch sends `\x7b message: err \x7d`). -/
inductive ErrBody where
  | msg (s : String)
  | errObj (e : JsError)
deriving DecidableEq, Repr

/-- Shallow embedding of `errorHandler` from `helpers/error-handler.js`:
the sequential `if (err.name === ...)` chain mapping an error to a status
code and body. -/
def errorHandler (err : JsError) : Nat × ErrBody :=
  if err.name = "UnauthorizedError" then (401, .msg "Unauthorized")
  else if err.name = "NotFoundError" then (404, .msg "Resource not found")
  else if err.name = "ValidationError" then (400, .msg err.message)
  else if err.name = "CastError" then (400, .msg "Invalid ID format")
  else if err.name = "JsonWebTokenError" then (401, .msg "Invalid token")
  else if err.name = "TokenExpiredError" then (401, .msg "Token expired")
  else if err.name = "MongoError" ∧ err.code = some 11000 then
    (400, .msg "Duplicate key error")
  else if err.name = "MulterError" then (400, .msg err.message)
  else if err.name = "SyntaxError" then (400, .msg "Invalid JSON format")
  else if err.name = "RangeError" then (400, .msg "Range error")
  else if err.name = "TypeError" then (400, .msg "Type error")
  else if err.name = "ReferenceError" then (400, .msg "Reference error")
  else (500, .errObj err)

/-- The names the claim lists as the bad-request (400) category:
validation, cast, and parse errors (duplicate keys are covered separately
by the `MongoError`/11000 test). -/
def claimedBadRequestNames : List String :=
  ["ValidationError", "CastError", "SyntaxError"]

/-- The names the claim lists as the unauthorized (401) category. -/
def claimedAuthNames : List String :=
  ["UnauthorizedError", "JsonWebTokenError", "TokenExpiredError"]

/-- C3 counterexample: the claim says every error name outside the
authentication / not-found / validation-cast-duplicate-parse categories is
answered with a generic 500, but `errorHandler` answers `RangeError` —
which is in none of those categories — with status 400. -/
theorem errorHandler_claim_cex :
    "RangeError" ∉ claimedAuthNames ∧
    "RangeError" ≠ "NotFoundError" ∧
    "RangeError" ∉ claimedBadRequestNames ∧
    "RangeError" ≠ "MongoError" ∧
    (errorHandler ⟨"RangeError", "idx", none⟩).1 = 400 ∧
    (errorHandler ⟨"RangeError", "idx", none⟩).1 ≠ 500 := by
  decide

/-- The status component of `errorHandler`, written as a bare conditional
tree (proof helper; `errorHandler_fst` ties it to the embedding). -/
def errStatusTree (err : JsError) : Nat :=
  if err.name = "UnauthorizedError" then 401
  else if err.name = "NotFoundError" then 404
  else if err.name = "ValidationError" then 400
  else if err.name = "CastError" then 400
  else if err.name = "JsonWebTokenError" then 401
  else if err.name = "TokenExpiredError" then 401
  else if err.name = "MongoError" ∧ err.code = some 11000 then 400
  else if err.name = "MulterError" then 400
  else if err.name = "SyntaxError" then 400
  else if err.name = "RangeError" then 400
  else if err.name = "TypeError" then 400
  else if err.name = "ReferenceError" then 400
  else 500

theorem errorHandler_fst (err : JsError) :
    (errorHandler err).1 = errStatusTree err := by
  simp only [errorHandler, errStatusTree, apply_ite (Prod.fst : Nat × ErrBody → Nat)]

set_option maxHeartbeats 1600000 in
/-- C3 (amended): `errorHandler` returns 401 exactly for
`UnauthorizedError`, `JsonWebTokenError`, `TokenExpiredError`; 404 exactly
for `NotFoundError`; 400 exactly for `ValidationError`, `CastError`,
`MulterError`, `SyntaxError`, `RangeError`, `TypeError`, `ReferenceError`
and for `MongoError` with code 11000; and 500 for every other error. -/
theorem errorHandler_status_characterization (err : JsError) :
    ((errorHandler err).1 = 401 ↔
      err.name ∈ ["UnauthorizedError", "JsonWebTokenError", "TokenExpiredError"]) ∧
    ((errorHandler err).1 = 404 ↔ err.name = "NotFoundError") ∧
    ((errorHandler err).1 = 400 ↔
      (err.name ∈ ["ValidationError", "CastError", "MulterError", "SyntaxError",
        "RangeError", "TypeError", "ReferenceError"] ∨
       (err.name = "MongoError" ∧ err.code = some 11000))) ∧
    ((errorHandler err).1 ≠ 401 → (errorHandler err).1 ≠ 404 →
      (errorHandler err).1 ≠ 400 → (errorHandler err).1 = 500) := by
  simp only [errorHandler_fst]
  unfold errStatusTree
  split_ifs with h1 h2 h3 h4 h5 h6 h7 h8 h9 h10 h11 h12 <;>
    simp_all

/-! ### Stores

Collections are association lists keyed by `DocId`.  `findDoc` models
`findById` (the first binding wins), inserts prepend (a fresh ObjectId
never equals an existing one), `removeKey` models `findByIdAndDelete`,
`replaceKey` models `findByIdAndUpdate`. -/

/-- A MongoDB collection: an association list from ids to documents. -/
abbrev Store (α : Type) := List (DocId × α)

/-- `findById`: the first binding for an id, if any. -/
def findDoc {α : Type} (s : Store α) (i : DocId) : Option α :=
  match s with
  | [] => none
  | (k, v) :: t => if i = k then some v else findDoc t i

/-- `findByIdAndDelete`: remove the document with the given id. -/
def removeKey {α : Type} (s : Store α) (i : DocId) : Store α :=
  s.filter (fun p => p.1 ≠ i)

/-- `findByIdAndUpdate`: replace the document stored under `i` (no-op when
the id is absent). -/
def replaceKey {α : Type} (s : Store α) (i : DocId) (a : α) : Store α :=
  s.map (fun p => if p.1 = i then (i, a) else p)

theorem findDoc_removeKey_self {α : Type} (s : Store α) (i : DocId) :
    findDoc (removeKey s i) i = none := by
  induction s with
  | nil => rfl
  | cons p t ih =>
    obtain ⟨k, v⟩ := p
    by_cases h : k = i
    · simpa [removeKey, List.filter_cons, h] using ih
    · simpa [removeKey, List.filter_cons, h, findDoc, Ne.symm h] using ih

theorem findDoc_removeKey_other {α : Type} (s : Store α) (i j : DocId) (h : j ≠ i) :
    findDoc (removeKey s i) j = findDoc s j := by
  induction s with
  | nil => rfl
  | cons p t ih =>
    obtain ⟨k, v⟩ := p
    by_cases hp : k = i
    · have hj : j ≠ k := fun hc => h (hc ▸ hp)
      simpa [removeKey, List.filter_cons, hp, findDoc, hj, h] using ih
    · by_cases hj : j = k
      · simp [removeKey, List.filter_cons, hp, findDoc, hj]
      · simpa [removeKey, List.filter_cons, hp, findDoc, hj] using ih

/-- Folding `removeKey` over a list of ids (the order-deletion cleanup loop). -/
def removeKeys {α : Type} (s : Store α) (ids : List DocId) : Store α :=
  ids.foldl removeKey s

theorem findDoc_removeKeys {α : Type} (s : Store α) (ids : List DocId) (j : DocId) :
    findDoc (removeKeys s ids) j = if j ∈ ids then none else findDoc s j := by
  induction ids generalizing s with
  | nil => simp [removeKeys]
  | cons i t ih =>
    have hstep : removeKeys s (i :: t) = removeKeys (removeKey s i) t := rfl
    rw [hstep, ih]
    by_cases hj : j = i
    · subst hj
      by_cases ht : j ∈ t <;> simp [ht, findDoc_removeKey_self]
    · by_cases ht : j ∈ t <;> simp [ht, hj, findDoc_removeKey_other _ _ _ hj]

/-! ### Data models (`models/*.js`)

Field-by-field translations of the Mongoose schemas.  `Option` marks
fields without a schema default (absent values fail `required`
validation); defaulted fields store their resolved value. -/

/-- `models/category.js`: only `name` is required. -/
structure Category where
  name : String
  icon : Option String
  color : Option String
  image : Option String
deriving DecidableEq, Repr

/-- `models/product.js`. -/
structure Product where
  name : String
  description : String
  richDescription : String
  image : String
  images : List String
  brand : String
  price : Int
  category : DocId
  countInStock : Int
  rating : Int
  isFeatured : Bool
deriving DecidableEq, Repr

/-- `models/orderItem.js`. -/
structure OrderItem where
  quantity : Int
  product : DocId
deriving DecidableEq, Repr

/-- The `enum` of `orderSchema.status` in `models/order.js`. -/
def orderStatusEnum : List String :=
  ["Pending", "Shipped", "Delivered", "Cancelled"]

/-- `models/order.js`.  `dateOrdered` keeps the client-supplied value
(`none` = defaulted to the server clock). -/
structure Order where
  orderItems : List DocId
  shippingAddress1 : String
  shippingAddress2 : String
  city : String
  zip : String
  country : String
  phone : String
  status : String
  totalPrice : Int
  user : Option DocId
  dateOrdered : Option Int
deriving DecidableEq, Repr

/-- The user model (`models/User.js` is referenced by `routers/users.js`;
fields follow the registration handler and the spec's data-model table). -/
structure User where
  name : String
  email : String
  passwordHash : String
  phone : String
  street : String
  apartment : String
  zip : String
  city : String
  country : String
  isAdmin : Bool
deriving DecidableEq, Repr

/-- The MongoDB database state plus a fresh-ObjectId counter. -/
structure DB where
  categories : Store Category
  products : Store Product
  orders : Store Order
  orderItems : Store OrderItem
  users : Store User
  nextId : DocId
deriving DecidableEq, Repr

/-! ### routers/orders.js — POST / (order creation) -/

/-- One entry of `req.body.orderItems`. -/
structure OrderItemReq where
  quantity : Int
  product : DocId
deriving DecidableEq, Repr

/-- The body of a `POST /orders` request. -/
structure OrderBody where
  orderItems : List OrderItemReq
  shippingAddress1 : Option String
  shippingAddress2 : Option String
  city : Option String
  zip : Option String
  country : Option String
  phone : Option String
  status : Option String
  user : Option DocId
  dateOrdered : Option Int
deriving DecidableEq, Repr

/-- `new OrderItem({ quantity, product })`. -/
def mkOrderItem (r : OrderItemReq) : OrderItem :=
  ⟨r.quantity, r.product⟩

/-- Phase 1 of the POST handler: save every submitted order item, in
order, returning the new ids, the grown store and the advanced counter. -/
def saveOrderItems : List OrderItemReq → Store OrderItem → DocId →
    List DocId × Store OrderItem × DocId
  | [], store, next => ([], store, next)
  | it :: rest, store, next =>
    let r := saveOrderItems rest ((next, mkOrderItem it) :: store) (next + 1)
    (next :: r.1, r.2.1, r.2.2)

/-- The price contribution of one submitted item: `product.price *
orderItem.quantity`, or a thrown `TypeError` when `populate` yields a
null product. -/
def reqPrice (products : Store Product) (it : OrderItemReq) : Except String Int :=
  match findDoc products it.product with
  | none => .error "TypeError"
  | some p => .ok (p.price * it.quantity)

/-- Phase 2 of the POST handler, per saved id: re-fetch the order item,
populate its product, and multiply price by quantity. -/
def itemPrice (products : Store Product) (store : Store OrderItem) (iid : DocId) :
    Except String Int :=
  match findDoc store iid with
  | none => .error "TypeError"
  | some it =>
    match findDoc products it.product with
    | none => .error "TypeError"
    | some p => .ok (p.price * it.quantity)

/-- `Promise.all(orderItemIds.map(...))`: all per-item prices, or the
first rejection. -/
def computePrices (products : Store Product) (store : Store OrderItem) :
    List DocId → Except String (List Int)
  | [] => .ok []
  | iid :: rest =>
    match itemPrice products store iid, computePrices products store rest with
    | .error m, _ => .error m
    | .ok _, .error m => .error m
    | .ok v, .ok vs => .ok (v :: vs)

/-- Pricing the submitted items directly (specification-side view of the
two-phase save-then-refetch pricing; `computePrices_saveOrderItems` shows
they agree). -/
def pricesOf (products : Store Product) : List OrderItemReq → Except String (List Int)
  | [] => .ok []
  | it :: rest =>
    match reqPrice products it, pricesOf products rest with
    | .error m, _ => .error m
    | .ok _, .error m => .error m
    | .ok v, .ok vs => .ok (v :: vs)

/-- `order.save()`: Mongoose validation of `orderSchema` — the required
shipping fields, the `status` enum with default `Pending`, and the
defaults of the optional fields. -/
def orderSave (body : OrderBody) (itemIds : List DocId) (total : Int) :
    Except String Order :=
  match body.shippingAddress1, body.city, body.zip, body.country, body.phone with
  | some a1, some city, some zip, some country, some phone =>
    let mk : String → Order := fun st =>
      { orderItems := itemIds, shippingAddress1 := a1,
        shippingAddress2 := body.shippingAddress2.getD "",
        city := city, zip := zip, country := country, phone := phone,
        status := st, totalPrice := total, user := body.user,
        dateOrdered := body.dateOrdered }
    match body.status with
    | none => .ok (mk "Pending")
    | some st => if st ∈ orderStatusEnum then .ok (mk st) else .error "ValidationError"
  | _, _, _, _, _ => .error "ValidationError"

/-- Outcome of `POST /orders`: 201 with the created order, 500 from the
`.catch` around `order.save()`, or an unhandled rejection escaping the
`async` handler during the total-price computation. -/
inductive PostOrderRes where
  | created (id : DocId) (o : Order)
  | saveFailed (msg : String)
  | crashed (msg : String)
deriving DecidableEq, Repr

/-- The `POST /orders` handler: save all order items, compute the total
price from the saved items (`reduce((acc, price) => acc + price, 0)`),
then build and save the order.  The order-item store has already grown by
the time the price computation or the order save can fail. -/
def postOrder (db : DB) (body : OrderBody) : PostOrderRes × DB :=
  match computePrices db.products
      (saveOrderItems body.orderItems db.orderItems db.nextId).2.1
      (saveOrderItems body.orderItems db.orderItems db.nextId).1 with
  | .error m =>
    (.crashed m,
     { db with orderItems := (saveOrderItems body.orderItems db.orderItems db.nextId).2.1,
               nextId := (saveOrderItems body.orderItems db.orderItems db.nextId).2.2 })
  | .ok totalPrice =>
    match orderSave body (saveOrderItems body.orderItems db.orderItems db.nextId).1
        (totalPrice.foldl (fun acc price => acc + price) 0) with
    | .error m =>
      (.saveFailed m,
       { db with orderItems := (saveOrderItems body.orderItems db.orderItems db.nextId).2.1,
                 nextId := (saveOrderItems body.orderItems db.orderItems db.nextId).2.2 })
    | .ok o =>
      (.created (saveOrderItems body.orderItems db.orderItems db.nextId).2.2 o,
       { db with orderItems := (saveOrderItems body.orderItems db.orderItems db.nextId).2.1,
                 orders := ((saveOrderItems body.orderItems db.orderItems db.nextId).2.2, o)
                   :: db.orders,
                 nextId := (saveOrderItems body.orderItems db.orderItems db.nextId).2.2 + 1 })

/-! ### routers/orders.js — the other order endpoints -/

/-- `GET /orders/:id`: on a miss the handler writes a 404 JSON body and
then — there is no `return` — still calls `res.send(order)`. -/
def getOrderById (db : DB) (i : DocId) : List Write :=
  match findDoc db.orders i with
  | none => [(404, .errMsg false "Order not found"), (200, .docOpt false)]
  | some _ => [(200, .docOpt true)]

/-- `GET /orders/get/count`: `if (!orderCount)` treats a zero count as a
failure, writes a 500 body, and then still sends the count. -/
def orderGetCount (db : DB) : List Write :=
  let orderCount : Int := db.orders.length
  if orderCount = 0 then
    [(500, .errMsg false "Orders not found"), (200, .countVal orderCount)]
  else
    [(200, .countVal orderCount)]

/-- Outcome of `DELETE /orders/:id` and the other delete handlers. -/
inductive DeleteRes where
  | deleted (msg : String)
  | missing (msg : String)
deriving DecidableEq, Repr

/-- `DELETE /orders/:id`: delete the order, then best-effort delete each
of its order items; 404 when the order does not exist. -/
def deleteOrder (db : DB) (i : DocId) : DeleteRes × DB :=
  match findDoc db.orders i with
  | none => (.missing "Order not found", db)
  | some o =>
    (.deleted "Order deleted successfully",
     { db with orders := removeKey db.orders i,
               orderItems := removeKeys db.orderItems o.orderItems })

/-- Outcome of `PUT /orders/:id`. -/
inductive UpdateRes where
  | updated (o : Order)
  | badRequest (msg : String)
deriving DecidableEq, Repr

/-- `PUT /orders/:id`: `findByIdAndUpdate(id, { status }, { new: true })`.
Update validators are off by default in Mongoose, so the incoming status
string is stored as-is, without the schema's `enum` check. -/
def updateOrderStatus (db : DB) (i : DocId) (newStatus : Option String) :
    UpdateRes × DB :=
  match findDoc db.orders i with
  | none => (.badRequest "Order not found", db)
  | some o =>
    let o' : Order :=
      match newStatus with
      | none => o
      | some s => { o with status := s }
    (.updated o', { db with orders := replaceKey db.orders i o' })

/-! ### routers/products.js -/

/-- `GET /products/:id`: 404 JSON on a miss, then an unguarded
`res.send(product)`. -/
def getProductById (db : DB) (i : DocId) : List Write :=
  match findDoc db.products i with
  | none => [(404, .errMsg false "Product not found"), (200, .docOpt false)]
  | some _ => [(200, .docOpt true)]

/-- `GET /products/get/count`: zero is falsy, so an empty collection
takes the 500 branch before the count is sent. -/
def productGetCount (db : DB) : List Write :=
  let productCount : Int := db.products.length
  if productCount = 0 then
    [(500, .errMsg false "Products not found"), (200, .countVal productCount)]
  else
    [(200, .countVal productCount)]

/-- The body of a `POST /products` request. -/
structure ProductBody where
  name : Option String
  description : Option String
  richDescription : Option String
  images : List String
  brand : Option String
  price : Option Int
  category : DocId
  countInStock : Option Int
  rating : Option Int
  isFeatured : Option Bool
deriving DecidableEq, Repr

/-- The multer-parsed upload (`req.file`). -/
structure UploadedFile where
  filename : String
deriving DecidableEq, Repr

/-- Outcome of `POST /products`. -/
inductive PostProductRes where
  | badRequest (msg : String)
  | created (id : DocId) (p : Product)
  | crashed (msg : String)
deriving DecidableEq, Repr

/-- `product.save()`: Mongoose validation of `productSchema` — `name`,
`description`, `countInStock` required, `countInStock` within [0, 255],
defaults for the rest. -/
def productSave (body : ProductBody) (image : String) : Except String Product :=
  match body.name, body.description, body.countInStock with
  | some name, some description, some cis =>
    if 0 ≤ cis ∧ cis ≤ 255 then
      .ok { name := name, description := description,
            richDescription := body.richDescription.getD "",
            image := image, images := body.images,
            brand := body.brand.getD "",
            price := body.price.getD 0,
            category := body.category,
            countInStock := cis,
            rating := body.rating.getD 0,
            isFeatured := body.isFeatured.getD false }
    else .error "ValidationError"
  | _, _, _ => .error "ValidationError"

/-- The `POST /products` handler: reject when the referenced category does
not exist, then when no image file was uploaded, then save. -/
def postProduct (db : DB) (body : ProductBody) (file : Option UploadedFile)
    (basePath : String) : PostProductRes × DB :=
  match findDoc db.categories body.category with
  | none => (.badRequest "Invalid Category", db)
  | some _ =>
    match file with
    | none => (.badRequest "No image in the request", db)
    | some f =>
      match productSave body (basePath ++ f.filename) with
      | .error m => (.crashed m, db)
      | .ok p =>
        (.created db.nextId p,
         { db with products := (db.nextId, p) :: db.products,
                   nextId := db.nextId + 1 })

/-! ### routers/categories.js and routers/users.js -/

/-- `GET /categories/:id`: this handler uses a proper `then`/`else`, so
exactly one write happens. -/
def getCategoryById (db : DB) (i : DocId) : List Write :=
  match findDoc db.categories i with
  | none => [(404, .errMsg false "Category not found")]
  | some _ => [(200, .docOpt true)]

/-- `GET /users/get/count`: same falsy-zero pattern as the other count
endpoints. -/
def userGetCount (db : DB) : List Write :=
  let userCount : Int := db.users.length
  if userCount = 0 then
    [(500, .errMsg false "Users not found"), (200, .countVal userCount)]
  else
    [(200, .countVal userCount)]

/-! ### Lemmas about order-item saving and pricing -/

/-- Ids strictly below the counter are untouched by `saveOrderItems`. -/
theorem findDoc_saveOrderItems_lt (items : List OrderItemReq)
    (s : Store OrderItem) (n k : DocId) (hk : k < n) :
    findDoc (saveOrderItems items s n).2.1 k = findDoc s k := by
  induction items generalizing s n with
  | nil => rfl
  | cons it rest ih =>
    have h1 : (saveOrderItems (it :: rest) s n).2.1
        = (saveOrderItems rest ((n, mkOrderItem it) :: s) (n + 1)).2.1 := rfl
    rw [h1, ih _ _ (Nat.lt_succ_of_lt hk)]
    simp [findDoc, Nat.ne_of_lt hk]

/-- Re-fetching each freshly saved order item and pricing it agrees with
pricing the submitted items directly. -/
theorem computePrices_saveOrderItems (items : List OrderItemReq)
    (s : Store OrderItem) (n : DocId) (P : Store Product) :
    computePrices P (saveOrderItems items s n).2.1 (saveOrderItems items s n).1
      = pricesOf P items := by
  induction items generalizing s n with
  | nil => rfl
  | cons it rest ih =>
    have hfind : findDoc (saveOrderItems rest ((n, mkOrderItem it) :: s) (n + 1)).2.1 n
        = some (mkOrderItem it) := by
      rw [findDoc_saveOrderItems_lt rest _ _ _ (Nat.lt_succ_self n)]
      simp [findDoc]
    have hsave1 : (saveOrderItems (it :: rest) s n).1
        = n :: (saveOrderItems rest ((n, mkOrderItem it) :: s) (n + 1)).1 := rfl
    have hsave2 : (saveOrderItems (it :: rest) s n).2.1
        = (saveOrderItems rest ((n, mkOrderItem it) :: s) (n + 1)).2.1 := rfl
    rw [hsave1, hsave2]
    have ih2 := ih ((n, mkOrderItem it) :: s) (n + 1)
    have hhead : itemPrice P (saveOrderItems rest ((n, mkOrderItem it) :: s) (n + 1)).2.1 n
        = reqPrice P it := by
      unfold itemPrice
      rw [hfind]
      simp [reqPrice, mkOrderItem]
    simp [computePrices, pricesOf, hhead, ih2]

/-- Every submitted order item ends up saved under its returned id. -/
theorem saveOrderItems_persist (items : List OrderItemReq)
    (s : Store OrderItem) (n : DocId) :
    List.Forall₂
      (fun it iid => findDoc (saveOrderItems items s n).2.1 iid = some (mkOrderItem it))
      items (saveOrderItems items s n).1 := by
  induction items generalizing s n with
  | nil => exact List.Forall₂.nil
  | cons it rest ih =>
    refine List.Forall₂.cons ?_ (ih ((n, mkOrderItem it) :: s) (n + 1))
    have hsave2 : (saveOrderItems (it :: rest) s n).2.1
        = (saveOrderItems rest ((n, mkOrderItem it) :: s) (n + 1)).2.1 := rfl
    rw [hsave2, findDoc_saveOrderItems_lt rest _ _ _ (Nat.lt_succ_self n)]
    simp [findDoc]

/-- The price of a product looked up in a store (0 when absent; the
claims always assume presence). -/
def productPriceAt (P : Store Product) (pid : DocId) : Int :=
  match findDoc P pid with
  | none => 0
  | some p => p.price

/-- When every submitted item's product exists, pricing succeeds and
yields exactly the price-times-quantity list. -/
theorem pricesOf_ok (P : Store Product) (items : List OrderItemReq)
    (h : ∀ it ∈ items, (findDoc P it.product).isSome) :
    pricesOf P items
      = Except.ok (items.map (fun it => productPriceAt P it.product * it.quantity)) := by
  induction items with
  | nil => rfl
  | cons it rest ih =>
    obtain ⟨p, hp⟩ := Option.isSome_iff_exists.mp (h it (List.mem_cons_self it rest))
    simp [pricesOf, reqPrice, hp, productPriceAt,
      ih (fun x hx => h x (List.mem_cons_of_mem _ hx))]

theorem foldl_add_eq_sum (l : List Int) (a : Int) :
    l.foldl (fun acc price => acc + price) a = a + l.sum := by
  induction l generalizing a with
  | nil => simp
  | cons x t ih => simp [List.foldl_cons, ih, List.sum_cons]; ring

theorem orderSave_totalPrice (body : OrderBody) (ids : List DocId) (total : Int)
    (o : Order) (h : orderSave body ids total = .ok o) : o.totalPrice = total := by
  unfold orderSave at h
  repeat' split at h
  all_goals first
    | exact Except.noConfusion h
    | (cases h; rfl)

theorem map_price_comm (P : Store Product) (l : List OrderItemReq) :
    l.map (fun it => productPriceAt P it.product * it.quantity)
      = l.map (fun it => it.quantity * productPriceAt P it.product) := by
  induction l with
  | nil => rfl
  | cons x t ih => simp [ih, Int.mul_comm]

/-! ### Sample data used by the closed witness theorems -/

/-- An existing product with price 7 under id 10. -/
def prodEx1 : Product :=
  { name := "p", description := "d", richDescription := "", image := "",
    images := [], brand := "", price := 7, category := 1,
    countInStock := 5, rating := 0, isFeatured := false }

/-- A database holding one category and one product. -/
def dbEx1 : DB :=
  { categories := [(1, ⟨"cat", none, none, none⟩)], products := [(10, prodEx1)],
    orders := [], orderItems := [], users := [], nextId := 100 }

/-- A well-formed order body: two line items on product 10. -/
def bodyEx1 : OrderBody :=
  { orderItems := [⟨2, 10⟩, ⟨3, 10⟩], shippingAddress1 := some "a1",
    shippingAddress2 := none, city := some "c", zip := some "z",
    country := some "co", phone := some "ph", status := none,
    user := some 50, dateOrdered := none }

/-- The order `postOrder dbEx1 bodyEx1` creates. -/
def orderEx1 : Order :=
  { orderItems := [100, 101], shippingAddress1 := "a1", shippingAddress2 := "",
    city := "c", zip := "z", country := "co", phone := "ph",
    status := "Pending", totalPrice := 35, user := some 50, dateOrdered := none }

/-- The database state after `postOrder dbEx1 bodyEx1`. -/
def dbEx1' : DB :=
  { dbEx1 with orderItems := [(101, ⟨3, 10⟩), (100, ⟨2, 10⟩)],
               orders := [(102, orderEx1)], nextId := 103 }

/-- An order body whose single line item references the nonexistent
product 77. -/
def bodyEx2 : OrderBody :=
  { bodyEx1 with orderItems := [⟨2, 77⟩] }

/-- The empty database. -/
def dbEmpty : DB :=
  { categories := [], products := [], orders := [], orderItems := [],
    users := [], nextId := 1 }

/-! ### C1 and C10: order creation -/

/-- C1: when every submitted order item references an existing product,
the order created by `POST /orders` has `totalPrice` equal to the sum
over the submitted line items of quantity times the referenced product's
price at creation time. -/
theorem postOrder_totalPrice (db : DB) (body : OrderBody) (oid : DocId)
    (o : Order) (db' : DB)
    (hprod : ∀ it ∈ body.orderItems, (findDoc db.products it.product).isSome)
    (hres : postOrder db body = (.created oid o, db')) :
    o.totalPrice
      = (body.orderItems.map
          (fun it => it.quantity * productPriceAt db.products it.product)).sum := by
  unfold postOrder at hres
  rw [computePrices_saveOrderItems, pricesOf_ok db.products body.orderItems hprod] at hres
  dsimp only at hres
  cases hsave : orderSave body (saveOrderItems body.orderItems db.orderItems db.nextId).1
      ((body.orderItems.map
          (fun it => productPriceAt db.products it.product * it.quantity)).foldl
        (fun acc price => acc + price) 0) with
  | error m => rw [hsave] at hres; simp at hres
  | ok o2 =>
    rw [hsave] at hres
    have hfst := congrArg Prod.fst hres
    simp only [PostOrderRes.created.injEq, Prod.fst] at hfst
    have ho : o2 = o := hfst.2
    have ht := orderSave_totalPrice _ _ _ _ hsave
    rw [ho] at ht
    rw [ht, foldl_add_eq_sum, zero_add, map_price_comm]

/-- C1 witness: on the sample database and order body, the created order
exists and its total price is 2·7 + 3·7 = 35. -/
theorem postOrder_totalPrice_witness :
    orderEx1.totalPrice
      = (bodyEx1.orderItems.map
          (fun it => it.quantity * productPriceAt dbEx1.products it.product)).sum :=
  postOrder_totalPrice dbEx1 bodyEx1 102 orderEx1 dbEx1' (by decide) (by decide)

/-- C10: `POST /orders` persists every submitted order item under its
fresh id no matter how the rest of the handler goes, and when the price
computation crashes or the order save fails, no order is added — the
saved order items are left behind. -/
theorem postOrder_items_persist (db : DB) (body : OrderBody) :
    List.Forall₂
      (fun it iid => findDoc (postOrder db body).2.orderItems iid = some (mkOrderItem it))
      body.orderItems (saveOrderItems body.orderItems db.orderItems db.nextId).1 ∧
    (∀ m, (postOrder db body).1 = .crashed m → (postOrder db body).2.orders = db.orders) ∧
    (∀ m, (postOrder db body).1 = .saveFailed m → (postOrder db body).2.orders = db.orders) := by
  have hpersist := saveOrderItems_persist body.orderItems db.orderItems db.nextId
  cases hcp : computePrices db.products
      (saveOrderItems body.orderItems db.orderItems db.nextId).2.1
      (saveOrderItems body.orderItems db.orderItems db.nextId).1 with
  | error m =>
    refine ⟨?_, ?_, ?_⟩
    · simpa [postOrder, hcp] using hpersist
    · intro m' h; simp [postOrder, hcp]
    · intro m' h; simp [postOrder, hcp] at h
  | ok prices =>
    cases hsave : orderSave body (saveOrderItems body.orderItems db.orderItems db.nextId).1
        (prices.foldl (fun acc price => acc + price) 0) with
    | error m =>
      refine ⟨?_, ?_, ?_⟩
      · simpa [postOrder, hcp, hsave] using hpersist
      · intro m' h; simp [postOrder, hcp, hsave] at h
      · intro m' h; simp [postOrder, hcp, hsave]
    | ok o =>
      refine ⟨?_, ?_, ?_⟩
      · simpa [postOrder, hcp, hsave] using hpersist
      · intro m' h; simp [postOrder, hcp, hsave] at h
      · intro m' h; simp [postOrder, hcp, hsave] at h

/-- C10 witness: an order body referencing the nonexistent product 77
crashes the price computation, yet the order item is persisted and no
order was created. -/
theorem postOrder_items_persist_witness :
    findDoc (postOrder dbEx1 bodyEx2).2.orderItems 100 = some ⟨2, 77⟩ ∧
    (postOrder dbEx1 bodyEx2).1 = .crashed "TypeError" ∧
    (postOrder dbEx1 bodyEx2).2.orders = dbEx1.orders :=
  ⟨by decide, by decide,
   (postOrder_items_persist dbEx1 bodyEx2).2.1 "TypeError" (by decide)⟩

/-! ### C4: GET by id on a missing document -/

/-- C4: for products, orders and categories, a GET-by-id request whose id
matches no stored document produces a response whose transmitted status
is 404 (for products and orders a second, failing write is attempted
afterwards; the 404 written first is what the client sees). -/
theorem getById_missing_404 (db : DB) (i : DocId) :
    (findDoc db.products i = none → respStatus (getProductById db i) = some 404) ∧
    (findDoc db.orders i = none → respStatus (getOrderById db i) = some 404) ∧
    (findDoc db.categories i = none → respStatus (getCategoryById db i) = some 404) := by
  refine ⟨fun h => ?_, fun h => ?_, fun h => ?_⟩ <;>
    simp [getProductById, getOrderById, getCategoryById, h, respStatus]

/-- C4 witness: on the empty database every GET by id transmits 404. -/
theorem getById_missing_404_witness :
    respStatus (getProductById dbEmpty 3) = some 404 ∧
    respStatus (getOrderById dbEmpty 3) = some 404 ∧
    respStatus (getCategoryById dbEmpty 3) = some 404 :=
  ⟨(getById_missing_404 dbEmpty 3).1 (by decide),
   (getById_missing_404 dbEmpty 3).2.1 (by decide),
   (getById_missing_404 dbEmpty 3).2.2 (by decide)⟩

/-! ### C5: POST /products with a nonexistent category -/

/-- A product-creation body referencing category 999. -/
def productBodyEx : ProductBody :=
  { name := some "n", description := some "d", richDescription := none,
    images := [], brand := none, price := some 3, category := 999,
    countInStock := some 4, rating := none, isFeatured := none }

/-- C5: when the body's category does not exist, `POST /products` answers
400 "Invalid Category" and the database — in particular the product
store — is unchanged. -/
theorem postProduct_invalid_category (db : DB) (body : ProductBody)
    (file : Option UploadedFile) (basePath : String)
    (h : findDoc db.categories body.category = none) :
    (postProduct db body file basePath).1 = .badRequest "Invalid Category" ∧
    (postProduct db body file basePath).2 = db := by
  simp [postProduct, h]

/-- C5 witness: category 999 does not exist in the sample database. -/
theorem postProduct_invalid_category_witness :
    (postProduct dbEx1 productBodyEx (some ⟨"f.png"⟩) "http://h/public/uploads/").1
      = .badRequest "Invalid Category" ∧
    (postProduct dbEx1 productBodyEx (some ⟨"f.png"⟩) "http://h/public/uploads/").2
      = dbEx1 :=
  postProduct_invalid_category dbEx1 productBodyEx (some ⟨"f.png"⟩)
    "http://h/public/uploads/" (by decide)

/-! ### C6: DELETE /orders/:id -/

/-- C6: deleting an existing order answers success, removes the order and
every order item listed in it (other order items are untouched); deleting
a nonexistent order answers 404 and leaves the database unchanged. -/
theorem deleteOrder_spec (db : DB) (i : DocId) :
    (∀ o, findDoc db.orders i = some o →
      (deleteOrder db i).1 = .deleted "Order deleted successfully" ∧
      findDoc (deleteOrder db i).2.orders i = none ∧
      (∀ iid ∈ o.orderItems, findDoc (deleteOrder db i).2.orderItems iid = none) ∧
      (∀ j, j ∉ o.orderItems →
        findDoc (deleteOrder db i).2.orderItems j = findDoc db.orderItems j)) ∧
    (findDoc db.orders i = none →
      (deleteOrder db i).1 = .missing "Order not found" ∧ (deleteOrder db i).2 = db) := by
  constructor
  · intro o ho
    refine ⟨by simp [deleteOrder, ho],
            by simp [deleteOrder, ho, findDoc_removeKey_self], ?_, ?_⟩
    · intro iid hiid
      simp [deleteOrder, ho, findDoc_removeKeys, hiid]
    · intro j hj
      simp [deleteOrder, ho, findDoc_removeKeys, hj]
  · intro h
    simp [deleteOrder, h]

/-- An order owning order items 5 and 6. -/
def orderEx2 : Order :=
  { orderEx1 with orderItems := [5, 6] }

/-- A database with that order and three order items (7 belongs to no
order). -/
def dbEx3 : DB :=
  { categories := [], products := [], orders := [(1, orderEx2)],
    orderItems := [(5, ⟨1, 10⟩), (6, ⟨2, 10⟩), (7, ⟨3, 10⟩)],
    users := [], nextId := 50 }

/-- C6 witness: deleting order 1 removes it and its items 5 and 6 while
item 7 survives. -/
theorem deleteOrder_spec_witness :
    (deleteOrder dbEx3 1).1 = .deleted "Order deleted successfully" ∧
    findDoc (deleteOrder dbEx3 1).2.orders 1 = none ∧
    findDoc (deleteOrder dbEx3 1).2.orderItems 5 = none ∧
    findDoc (deleteOrder dbEx3 1).2.orderItems 7 = some ⟨3, 10⟩ := by
  have h := (deleteOrder_spec dbEx3 1).1 orderEx2 (by decide)
  exact ⟨h.1, h.2.1, h.2.2.1 5 (by decide),
    (h.2.2.2 7 (by decide)).trans (by decide)⟩

/-! ### C7: the order-status enumeration under PUT /orders/:id -/

/-- A database holding one pending order under id 1. -/
def dbEx4 : DB :=
  { categories := [], products := [], orders := [(1, orderEx1)],
    orderItems := [], users := [], nextId := 2 }

/-- The pending sample order with its status overwritten by "Bogus". -/
def orderBogus : Order :=
  { orderEx1 with status := "Bogus" }

/-- The sample order body asking for status "Bogus". -/
def bodyBogus : OrderBody :=
  { bodyEx1 with status := some "Bogus" }

/-- C7 (code bug): `PUT /orders/:id` goes through `findByIdAndUpdate`,
which does not run the schema validators, so the arbitrary status
"Bogus" — outside the schema's enum, and rejected by creation-time
validation (`orderSave`) — is persisted, breaking the enumeration
invariant the claim states. -/
theorem updateOrderStatus_enum_bug :
    (updateOrderStatus dbEx4 1 (some "Bogus")).1 = .updated orderBogus ∧
    findDoc (updateOrderStatus dbEx4 1 (some "Bogus")).2.orders 1 = some orderBogus ∧
    "Bogus" ∉ orderStatusEnum ∧
    orderSave bodyBogus [] 0 = .error "ValidationError" :=
  ⟨by decide, by decide, by decide, rfl⟩

/-! ### C9: the count endpoints on an empty collection -/

/-- C9: with an empty collection, each count endpoint first writes a 500
"not found" JSON body and then attempts to send the zero count; the
transmitted status is 500, not a plain successful zero. -/
theorem getCount_zero_500 (db : DB) :
    (db.products = [] →
      productGetCount db
        = [(500, .errMsg false "Products not found"), (200, .countVal 0)] ∧
      respStatus (productGetCount db) = some 500) ∧
    (db.users = [] →
      userGetCount db
        = [(500, .errMsg false "Users not found"), (200, .countVal 0)] ∧
      respStatus (userGetCount db) = some 500) ∧
    (db.orders = [] →
      orderGetCount db
        = [(500, .errMsg false "Orders not found"), (200, .countVal 0)] ∧
      respStatus (orderGetCount db) = some 500) := by
  refine ⟨fun h => ?_, fun h => ?_, fun h => ?_⟩ <;>
    simp [productGetCount, userGetCount, orderGetCount, h, respStatus]

/-- C9 witness: the empty database takes the 500 branch on all three
count endpoints. -/
theorem getCount_zero_500_witness :
    productGetCount dbEmpty
      = [(500, .errMsg false "Products not found"), (200, .countVal 0)] ∧
    userGetCount dbEmpty
      = [(500, .errMsg false "Users not found"), (200, .countVal 0)] ∧
    orderGetCount dbEmpty
      = [(500, .errMsg false "Orders not found"), (200, .countVal 0)] :=
  ⟨((getCount_zero_500 dbEmpty).1 rfl).1,
   ((getCount_zero_500 dbEmpty).2.1 rfl).1,
   ((getCount_zero_500 dbEmpty).2.2 rfl).1⟩

/-! ### Character-level string helpers

Small executable helpers over `List Char`, used by the middleware
allow-list (unanchored regex = substring test) and by the documentation
generator's path munging. -/

/-- Does the second list start with the first? -/
def listStarts : List Char → List Char → Bool
  | [], _ => true
  | _ :: _, [] => false
  | c :: cs, d :: ds => c == d && listStarts cs ds

/-- Does the second list contain the first as a contiguous run? -/
def listHasSub (pat : List Char) : List Char → Bool
  | [] => listStarts pat []
  | d :: ds => listStarts pat (d :: ds) || listHasSub pat ds

/-- Unanchored-regex/substring test: does `s` contain `pat`? -/
def strHasSub (s pat : String) : Bool :=
  listHasSub pat.toList s.toList

/-- Split a character list at a separator character. -/
def splitCharsOn (sep : Char) : List Char → List Char → List String
  | [], acc => [String.mk acc.reverse]
  | c :: rest, acc =>
    if c == sep then String.mk acc.reverse :: splitCharsOn sep rest []
    else splitCharsOn sep rest (c :: acc)

/-- The nonempty `/`-separated segments of a URL path. -/
def pathSegs (p : String) : List String :=
  (splitCharsOn '/' p.toList []).filter (fun s => s ≠ "")

/-! ### helpers/jwt.js and the app.js middleware order -/

/-- HTTP methods used by the routers and the allow-list. -/
inductive Method where
  | GET | POST | PUT | DELETE | OPTIONS
deriving DecidableEq, Repr

/-- The decoded bearer token: signature validity, expiry, and the
`isAdmin` payload claim checked by `isRevoked`. -/
structure Token where
  wellSigned : Bool
  expired : Bool
  isAdmin : Bool
deriving DecidableEq, Repr

/-- `expressJwt(...).unless({ path: [...] })` from `helpers/jwt.js` with
`API_URL = /api/v1`: the four unanchored regexes restricted to
GET/OPTIONS, plus the two literal user paths (note the source's
`regiseter` typo; the real registration route is `POST /api/v1/users`). -/
def unlessMatch (m : Method) (path : String) : Bool :=
  ((m == .GET || m == .OPTIONS) &&
    (strHasSub path "/api-docs" || strHasSub path "/public/uploads" ||
     strHasSub path "/api/v1/products" || strHasSub path "/api/v1/categories")) ||
  path == "/api/v1/users/login" || path == "/api/v1/users/regiseter"

/-- The gate enforced by `express-jwt` plus `isRevoked`: a token passes
iff it is present, correctly signed, unexpired, and carries `isAdmin`. -/
def tokenOk : Option Token → Bool
  | none => false
  | some tk => tk.wellSigned && !tk.expired && tk.isAdmin

/-- One segment of a registered Express route path. -/
inductive Seg where
  | lit (s : String)
  | pparam
deriving DecidableEq, Repr

/-- Express route matching: literal segments must agree, `:x` segments
consume any one segment. -/
def segMatch : List Seg → List String → Bool
  | [], [] => true
  | .lit s :: ps, t :: ts => s == t && segMatch ps ts
  | .pparam :: ps, _ :: ts => segMatch ps ts
  | _, _ => false

/-- A router table: method, route pattern, handler name. -/
abbrev RouteTable := List (Method × List Seg × String)

/-- First matching route wins (Express registration order). -/
def matchRouter : RouteTable → Method → List String → Option String
  | [], _, _ => none
  | (rm, ps, hname) :: rest, m, segs =>
    if rm == m && segMatch ps segs then some hname
    else matchRouter rest m segs

/-- `routers/products.js`, in registration order. -/
def productsRoutes : RouteTable :=
  [ (.GET, [], "products getAll"),
    (.GET, [.pparam], "products getById"),
    (.GET, [.lit "get", .lit "count"], "products getCount"),
    (.GET, [.lit "get", .lit "featured", .pparam], "products getFeatured"),
    (.POST, [], "products create"),
    (.DELETE, [.pparam], "products delete"),
    (.PUT, [.pparam], "products update"),
    (.PUT, [.lit "gallery-images", .pparam], "products galleryImages") ]

/-- `routers/categories.js`. -/
def categoriesRoutes : RouteTable :=
  [ (.GET, [], "categories getAll"),
    (.GET, [.pparam], "categories getById"),
    (.POST, [], "categories create"),
    (.PUT, [.pparam], "categories update"),
    (.DELETE, [.pparam], "categories delete") ]

/-- `routers/orders.js`. -/
def ordersRoutes : RouteTable :=
  [ (.GET, [], "orders getAll"),
    (.GET, [.pparam], "orders getById"),
    (.GET, [.lit "get", .lit "count"], "orders getCount"),
    (.GET, [.lit "get", .lit "totalsales"], "orders getTotalSales"),
    (.GET, [.lit "get", .lit "status", .pparam], "orders getByStatus"),
    (.GET, [.lit "get", .lit "userorders", .pparam], "orders getUserOrders"),
    (.POST, [], "orders create"),
    (.PUT, [.pparam], "orders update"),
    (.DELETE, [.pparam], "orders delete") ]

/-- `routers/users.js`. -/
def usersRoutes : RouteTable :=
  [ (.GET, [], "users getAll"),
    (.GET, [.pparam], "users getById"),
    (.GET, [.lit "get", .lit "count"], "users getCount"),
    (.POST, [], "users register"),
    (.POST, [.lit "login"], "users login"),
    (.PUT, [.pparam], "users update"),
    (.DELETE, [.pparam], "users delete") ]

/-- The four `app.use(api + ..., router)` mounts from `app.js`
(`API_URL = /api/v1`), tried in registration order. -/
def dispatchRouters (m : Method) (segs : List String) : Option String :=
  match segs with
  | "api" :: "v1" :: "products" :: rest => matchRouter productsRoutes m rest
  | "api" :: "v1" :: "categories" :: rest => matchRouter categoriesRoutes m rest
  | "api" :: "v1" :: "orders" :: rest => matchRouter ordersRoutes m rest
  | "api" :: "v1" :: "users" :: rest => matchRouter usersRoutes m rest
  | _ => none

/-- How the app answers a request. -/
inductive Outcome where
  | handler (hname : String)
  | staticFile
  | apiDocs
  | unauthorized
  | notFound
deriving DecidableEq, Repr

/-- The `app.js` middleware pipeline, in registration order: the static
`/public/uploads` server, then the four routers, then `authJwt()` (whose
`UnauthorizedError` the error middleware turns into a 401), then the
`/api-docs` UI. -/
def appHandle (m : Method) (path : String) (tok : Option Token) : Outcome :=
  match pathSegs path with
  | "public" :: "uploads" :: _ => .staticFile
  | segs =>
    match dispatchRouters m segs with
    | some h => .handler h
    | none =>
      if unlessMatch m path || tokenOk tok then
        match segs with
        | "api-docs" :: _ => .apiDocs
        | _ => .notFound
      else .unauthorized

/-- C2 (code bug): `app.js` mounts every router before `authJwt()`, so a
tokenless `DELETE /api/v1/products/123` — not allow-listed by the
middleware's own `unless` list — is dispatched straight to the protected
delete handler instead of being answered 401. -/
theorem protected_route_reached_without_token :
    appHandle .DELETE "/api/v1/products/123" none = .handler "products delete" ∧
    appHandle .DELETE "/api/v1/products/123" none ≠ .unauthorized ∧
    unlessMatch .DELETE "/api/v1/products/123" = false ∧
    tokenOk none = false := by
  decide

/-! ### utils/swagger-route-generator.js -/

/-- `routePath.replace(/^\/|\/$/g, "")`: drop one leading and one
trailing slash. -/
def stripSlashes (p : String) : String :=
  let cs := p.toList
  let cs1 := match cs with
    | '/' :: rest => rest
    | l => l
  let cs2 := match cs1.getLast? with
    | some '/' => cs1.dropLast
    | _ => cs1
  String.mk cs2

/-- The three chained `replace` calls: `/` and `-` become `_`, `:` is
dropped. -/
def mungeChars (cs : List Char) : List Char :=
  cs.filterMap (fun c =>
    if c == ':' then none
    else if c == '/' || c == '-' then some '_'
    else some c)

/-- Uppercase the first character. -/
def capitalizeStr (s : String) : String :=
  match s.toList with
  | [] => ""
  | c :: rest => String.mk (c.toUpper :: rest)

/-- `method.toLowerCase()`. -/
def toLowerStr (s : String) : String :=
  String.mk (s.toList.map Char.toLower)

/-- `generateOperationId` from `utils/swagger-route-generator.js`: munge
the path into parts, then either `<method>Root`, the `get`-prefixed
special case, or the camel-cased join. -/
def generateOperationId (routePath method : String) : String :=
  let pathParts :=
    (splitCharsOn '_' (mungeChars (stripSlashes routePath).toList) []).filter
      (fun p => p ≠ "")
  let methodPrefix := toLowerStr method
  if pathParts.length = 0 then methodPrefix ++ "Root"
  else if pathParts.contains "get" && pathParts.length > 1 then
    methodPrefix ++ capitalizeStr ((pathParts.drop 1).headD "")
  else
    methodPrefix ++ String.join
      ((pathParts.zip (List.range pathParts.length)).map
        (fun pi => if pi.2 = 0 then pi.1 else capitalizeStr pi.1))

/-- `tag.endsWith("s") ? tag.slice(0, -1) : tag`. -/
def singularTag (tag : String) : String :=
  match tag.toList.getLast? with
  | some 's' => String.mk tag.toList.dropLast
  | _ => tag

/-- The shape of the 200-response schema chosen by
`determineResponseSchema`. -/
inductive RespSchema where
  | emptyDefault
  | listOf (resource : String)
  | single (resource : String)
  | countObj
  | created (resource : String)
  | updated (resource : String)
  | deleteObj (resource : String)
  | loginObj
deriving DecidableEq, Repr

/-- `determineResponseSchema` from `utils/swagger-route-generator.js`:
the if/else chain pattern-matching the route path and method. -/
def determineResponseSchema (routePath method tag : String) : RespSchema :=
  let singular := singularTag tag
  if method = "get" ∧ (routePath = "/" ∨ routePath = "") then .listOf singular
  else if method = "get" ∧ strHasSub routePath "/:id" then .single singular
  else if method = "get" ∧ strHasSub routePath "/count" then .countObj
  else if method = "post" ∧ (routePath = "/" ∨ routePath = "") then .created singular
  else if method = "put" ∧ strHasSub routePath "/:id" then .updated singular
  else if method = "delete" ∧ strHasSub routePath "/:id" then .deleteObj singular
  else if method = "post" ∧ strHasSub routePath "/login" then .loginObj
  else .emptyDefault

/-- Every route the four router files register, as
(lower-cased method, route path, router tag). -/
def registeredRoutes : List (String × String × String) :=
  [ ("get", "/", "Products"), ("get", "/:id", "Products"),
    ("get", "/get/count", "Products"), ("get", "/get/featured/:count", "Products"),
    ("post", "/", "Products"), ("delete", "/:id", "Products"),
    ("put", "/:id", "Products"), ("put", "/gallery-images/:id", "Products"),
    ("get", "/", "Categories"), ("get", "/:id", "Categories"),
    ("post", "/", "Categories"), ("put", "/:id", "Categories"),
    ("delete", "/:id", "Categories"),
    ("get", "/", "Orders"), ("get", "/:id", "Orders"),
    ("get", "/get/count", "Orders"), ("get", "/get/totalsales", "Orders"),
    ("get", "/get/status/:status", "Orders"), ("get", "/get/userorders/:userId", "Orders"),
    ("post", "/", "Orders"), ("put", "/:id", "Orders"), ("delete", "/:id", "Orders"),
    ("get", "/", "Users"), ("get", "/:id", "Users"), ("get", "/get/count", "Users"),
    ("post", "/", "Users"), ("post", "/login", "Users"),
    ("put", "/:id", "Users"), ("delete", "/:id", "Users") ]

/-! ### utils/swagger-schema-generator.js -/

/-- One Mongoose validator as materialized on a schema path: its `type`
tag and the payload read by the generator. -/
structure MValidator where
  vtype : String
  vmin : Option Int := none
  vmax : Option Int := none
  enumValues : List String := []
deriving DecidableEq, Repr

/-- A Mongoose `schemaType`: a primitive path (with `instance` string,
validators, `options.ref` and `regExp`), a document array carrying a
nested `schema.obj.type.ref`, or a plain array with or without a caster. -/
inductive MSchemaType where
  | prim (instKind : String) (validators : List MValidator)
      (refName : Option String) (regExpStr : Option String)
  | docArray (refName : String) (validators : List MValidator)
  | arr (caster : MSchemaType) (validators : List MValidator)
  | arrNoCaster (validators : List MValidator)
deriving DecidableEq, Repr

/-- `schemaType.validators`. -/
def MSchemaType.validators : MSchemaType → List MValidator
  | .prim _ vs _ _ => vs
  | .docArray _ vs => vs
  | .arr _ vs => vs
  | .arrNoCaster vs => vs

/-- `schemaType.options && schemaType.options.ref`. -/
def MSchemaType.refName : MSchemaType → Option String
  | .prim _ _ r _ => r
  | _ => none

/-- `schemaType.regExp`. -/
def MSchemaType.regExpStr : MSchemaType → Option String
  | .prim _ _ _ r => r
  | _ => none

/-- An OpenAPI type as produced by `convertMongooseTypeToSwagger`. -/
inductive SwType where
  | prim (t : String)
  | primFmt (t : String) (format : String)
  | arrOf (item : SwType)
  | refArray (refName : String)
deriving DecidableEq, Repr

/-- The `typeMap` of `convertMongooseTypeToSwagger`. -/
def typeMapLookup (instKind : String) : SwType :=
  if instKind = "String" then .prim "string"
  else if instKind = "Number" then .prim "number"
  else if instKind = "Date" then .primFmt "string" "date-time"
  else if instKind = "Boolean" then .prim "boolean"
  else if instKind = "ObjectID" then .prim "string"
  else if instKind = "Mixed" then .prim "object"
  else if instKind = "Buffer" then .primFmt "string" "binary"
  else if instKind = "Map" then .prim "object"
  else if instKind = "Decimal128" then .prim "number"
  else .prim "string"

/-- `convertMongooseTypeToSwagger`: arrays of document references become
string arrays with a reference description, other arrays convert their
caster (defaulting to string), primitives go through the type map. -/
def convertMongooseTypeToSwagger : MSchemaType → SwType
  | .docArray r _ => .refArray r
  | .arr c _ => .arrOf (convertMongooseTypeToSwagger c)
  | .arrNoCaster _ => .arrOf (.prim "string")
  | .prim k _ _ _ => typeMapLookup k

/-- The per-field OpenAPI fragment assembled by `extractModelSchema`. -/
structure FieldInfo where
  ftype : SwType
  minimum : Option Int := none
  maximum : Option Int := none
  enum : List String := []
  description : Option String := none
  pattern : Option String := none
deriving DecidableEq, Repr

/-- The validator loop of `extractModelSchema`: `min`, `max` and `enum`
validators land in `minimum`, `maximum` and `enum`. -/
def applyValidators (fi : FieldInfo) (vs : List MValidator) : FieldInfo :=
  vs.foldl (fun acc v =>
    let acc1 := if v.vtype = "min" then { acc with minimum := v.vmin } else acc
    let acc2 := if v.vtype = "max" then { acc1 with maximum := v.vmax } else acc1
    if v.vtype = "enum" then { acc2 with enum := v.enumValues } else acc2) fi

/-- `extractModelSchema`: an `id` property first, then every schema path
except `_id`/`__v`, each converted, validator-merged, and given a
reference description when the path has `options.ref`. -/
def extractModelSchema (paths : List (String × MSchemaType)) :
    List (String × FieldInfo) :=
  ("id", { ftype := .prim "string", description := some "MongoDB ObjectId" }) ::
  (paths.filter (fun p => p.1 ≠ "__v" ∧ p.1 ≠ "_id")).map (fun p =>
    let fieldInfo : FieldInfo := { ftype := convertMongooseTypeToSwagger p.2 }
    let fi1 := applyValidators fieldInfo p.2.validators
    let fi2 := match p.2.regExpStr with
      | some r => { fi1 with pattern := some r }
      | none => fi1
    match p.2.refName with
    | some r => (p.1, { fi2 with description := some ("Reference to " ++ r ++ " model") })
    | none => (p.1, fi2))

/-- Association lookup keyed by strings (schema property names). -/
def assocFind {α : Type} (l : List (String × α)) (k : String) : Option α :=
  match l with
  | [] => none
  | (s, v) :: t => if k = s then some v else assocFind t k

def mvRequired : MValidator := { vtype := "required" }

def mvMin (n : Int) : MValidator := { vtype := "min", vmin := some n }

def mvMax (n : Int) : MValidator := { vtype := "max", vmax := some n }

def mvEnum (vs : List String) : MValidator := { vtype := "enum", enumValues := vs }

def mStr (vs : List MValidator) : MSchemaType := .prim "String" vs none none

def mNum (vs : List MValidator) : MSchemaType := .prim "Number" vs none none

def mBool : MSchemaType := .prim "Boolean" [] none none

def mDate : MSchemaType := .prim "Date" [] none none

def mObjId (r : Option String) (vs : List MValidator) : MSchemaType :=
  .prim "ObjectID" vs r none

/-- The schema paths Mongoose materializes for `models/product.js`
(declared fields plus the automatic `_id` and `__v`). -/
def productModelPaths : List (String × MSchemaType) :=
  [ ("name", mStr [mvRequired]),
    ("description", mStr [mvRequired]),
    ("richDescription", mStr []),
    ("image", mStr []),
    ("images", .arr (mStr []) []),
    ("brand", mStr []),
    ("price", mNum []),
    ("category", mObjId (some "Category") [mvRequired]),
    ("countInStock", mNum [mvRequired, mvMin 0, mvMax 255]),
    ("rating", mNum []),
    ("isFeatured", mBool),
    ("dateCreated", mDate),
    ("_id", mObjId none []),
    ("__v", mNum []) ]

/-- The schema paths Mongoose materializes for `models/order.js`. -/
def orderModelPaths : List (String × MSchemaType) :=
  [ ("orderItems", .arr (mObjId (some "OrderItem") [mvRequired]) []),
    ("shippingAddress1", mStr [mvRequired]),
    ("shippingAddress2", mStr []),
    ("city", mStr [mvRequired]),
    ("zip", mStr [mvRequired]),
    ("country", mStr [mvRequired]),
    ("phone", mStr [mvRequired]),
    ("status", mStr [mvEnum ["Pending", "Shipped", "Delivered", "Cancelled"]]),
    ("totalPrice", mNum [mvRequired]),
    ("user", mObjId (some "User") []),
    ("dateOrdered", mDate),
    ("_id", mObjId none []),
    ("__v", mNum []) ]

/-- C8: on every registered route the response schema follows the claimed
path/method patterns; the operation identifier is computed from the path
and method alone (shown on representative registered paths); and the
model-derived schemas merge types, min/max bounds, and enums from the
declared schema paths. -/
theorem swagger_generator_pattern_spec :
    (∀ r ∈ registeredRoutes,
      (r.1 = "get" ∧ strHasSub r.2.1 "/:id" = true →
        determineResponseSchema r.2.1 r.1 r.2.2 = .single (singularTag r.2.2)) ∧
      (r.1 = "get" ∧ strHasSub r.2.1 "/count" = true →
        determineResponseSchema r.2.1 r.1 r.2.2 = .countObj) ∧
      (r.1 = "get" ∧ r.2.1 = "/" →
        determineResponseSchema r.2.1 r.1 r.2.2 = .listOf (singularTag r.2.2)) ∧
      (r.1 = "post" ∧ r.2.1 = "/" →
        determineResponseSchema r.2.1 r.1 r.2.2 = .created (singularTag r.2.2)) ∧
      (r.1 = "delete" ∧ strHasSub r.2.1 "/:id" = true →
        determineResponseSchema r.2.1 r.1 r.2.2 = .deleteObj (singularTag r.2.2))) ∧
    generateOperationId "/get/count" "get" = "getCount" ∧
    generateOperationId "/" "post" = "postRoot" ∧
    generateOperationId "/:id" "get" = "getid" ∧
    generateOperationId "/get/featured/:count" "get" = "getFeatured" ∧
    assocFind (extractModelSchema orderModelPaths) "status"
      = some { ftype := .prim "string",
               enum := ["Pending", "Shipped", "Delivered", "Cancelled"] } ∧
    assocFind (extractModelSchema productModelPaths) "countInStock"
      = some { ftype := .prim "number", minimum := some 0, maximum := some 255 } ∧
    assocFind (extractModelSchema productModelPaths) "category"
      = some { ftype := .prim "string",
               description := some "Reference to Category model" } ∧
    assocFind (extractModelSchema productModelPaths) "dateCreated"
      = some { ftype := .primFmt "string" "date-time" } ∧
    assocFind (extractModelSchema orderModelPaths) "orderItems"
      = some { ftype := .arrOf (.prim "string") } ∧
    assocFind (extractModelSchema productModelPaths) "id"
      = some { ftype := .prim "string", description := some "MongoDB ObjectId" } := by
  decide

/-- C8 witness: the registered route `GET /:id` of the products router is
assigned the single-resource schema for `Product`. -/
theorem swagger_generator_pattern_spec_witness :
    ("get", "/:id", "Products") ∈ registeredRoutes ∧
    determineResponseSchema "/:id" "get" "Products" = .single (singularTag "Products") :=
  ⟨by decide,
   (swagger_generator_pattern_spec.1 ("get", "/:id", "Products") (by decide)).1
     ⟨rfl, by decide⟩⟩

/-- C3 witness (for the amended characterization): `TypeError` is in the
amended bad-request category and indeed maps to 400. -/
theorem errorHandler_status_characterization_witness :
    (errorHandler ⟨"TypeError", "", none⟩).1 = 400 :=
  ((errorHandler_status_characterization ⟨"TypeError", "", none⟩).2.2.1).mpr
    (Or.inl (by decide))

end EShop
